import Mathlib

/-!
Shallow embedding of the Portfolio Rebalancing Engine of the fintech backend
(`app/modules/portfolio_rebalance/service.py` and `triggers.py`, with the data
model of `app/models/portfolio_rebalance.py` and the schemas of
`app/schemas/portfolio_rebalance.py`).

Modelling conventions:
- Python floats are modelled as rationals (`ℚ`); `0.05` is `1/20`, `0.01` is
  `1/100`.
- Python dicts are association lists with Python-dict semantics: insertion
  order preserved, inserting an existing key overwrites in place.
- Database commits are modelled by threading the `RebalanceLog` record through
  the computation; the value carried by the final result is the persisted
  state of the run (the ORM/session layer is out of scope per the spec).
- The Investment Service and Notification Service are collaborator records of
  functions; a raising call is a `.error`, a successful one an `.ok`.
  `get_portfolio_exec` is the portfolio as re-fetched by `execute_rebalance`
  after the trades ran (the collaborator is stateful, so the two fetches may
  differ).
- Python exceptions are the `PyErr` type; `str(e)` is `PyErr.message`.
  User ids inside f-string messages are elided (a single user is modelled).
- Timestamps carry no information the claims need, so `completed_at` is a
  Boolean recording whether the field was set.
-/

namespace FintechRebalance

/-- Trigger type enum from `app/models/portfolio_rebalance.py`. -/
inductive RebalanceTriggerType
  | deposit
  | scheduled
  | manual
  | threshold
  deriving DecidableEq, Repr

/-- Status enum from `app/models/portfolio_rebalance.py`. -/
inductive RebalanceStatus
  | pending
  | computing
  | executing
  | completed
  | failed
  | cancelled
  deriving DecidableEq, Repr

/-- One holding of the user's portfolio, as returned by the Investment
Service's `get_portfolio`. -/
structure Holding where
  asset_id : String
  value : ℚ
  units : ℚ
  deriving DecidableEq, Repr

/-- The user's portfolio, as returned by the Investment Service. -/
structure Portfolio where
  holdings : List Holding
  deriving DecidableEq, Repr

/-- The user's risk profile: target allocations keyed by asset, in the
iteration order of the profile's allocation map. -/
structure RiskProfile where
  allocations : List (String × ℚ)
  deriving DecidableEq, Repr

/-- Transient per-asset allocation record (`AssetAllocation` schema). -/
structure AssetAllocation where
  asset_id : String
  current_allocation : ℚ
  target_allocation : ℚ
  drift : ℚ
  value : ℚ
  units : ℚ
  deriving DecidableEq, Repr

/-- A planned trade (`RebalanceTrade` schema). The `action` field is the
string "buy" or "sell" exactly as in the source. -/
structure RebalanceTrade where
  asset_id : String
  action : String
  units : ℚ
  value : ℚ
  current_allocation : ℚ
  target_allocation : ℚ
  deriving DecidableEq, Repr

/-- Opaque execution result returned by the Investment Service's
`execute_trade`. -/
structure TradeResult where
  info : String
  deriving DecidableEq, Repr

/-- A Python exception, as far as the engine distinguishes them. -/
inductive PyErr
  | valueError (msg : String)
  | zeroDivisionError
  | attributeError (msg : String)
  | externalError (msg : String)
  deriving DecidableEq, Repr

/-- Python's `str(e)` on an exception. -/
def PyErr.message : PyErr → String
  | .valueError m => m
  | .zeroDivisionError => "float division by zero"
  | .attributeError m => m
  | .externalError m => m

/-- Python-dict insert into an association list: overwrite an existing key in
place, otherwise append at the end (insertion order preserved). -/
def dictInsert {α : Type} (d : List (String × α)) (k : String) (v : α) :
    List (String × α) :=
  if d.any (fun p => p.1 = k) then
    d.map (fun p => if p.1 = k then (k, v) else p)
  else
    d ++ [(k, v)]

/-- Python's `d.get(k, dflt)` on an association list. -/
def dictGet {α : Type} (d : List (String × α)) (k : String) (dflt : α) : α :=
  match d.find? (fun p => p.1 = k) with
  | some p => p.2
  | none => dflt

/-- Python's `x or default` for an optional numeric argument: both `None` and
`0` are falsy and yield the default. -/
def orDefault (x : Option ℚ) (d : ℚ) : ℚ :=
  match x with
  | some t => if t = 0 then d else t
  | none => d

/-- The persisted `RebalanceLog` row (one rebalance run). -/
structure RebalanceLog where
  trigger_type : RebalanceTriggerType
  status : RebalanceStatus
  before_allocations : Option (List (String × ℚ))
  after_allocations : Option (List (String × ℚ))
  suggested_trades : Option (List (String × RebalanceTrade))
  executed_trades : Option (List (String × TradeResult))
  drift_threshold : ℚ
  max_drift : ℚ
  total_value : ℚ
  rebalance_amount : ℚ
  error : Option String
  completed_at : Bool
  deriving DecidableEq, Repr

/-- The `RebalanceSummary` schema returned alongside the run. -/
structure RebalanceSummary where
  total_value : ℚ
  max_drift : ℚ
  drift_threshold : ℚ
  rebalance_amount : ℚ
  trade_count : Nat
  allocations : List (String × AssetAllocation)
  trades : List RebalanceTrade
  deriving DecidableEq, Repr

/-- The Investment Service collaborator, fixed to the one user of the run.
`get_portfolio_exec` is what `get_portfolio` returns when called again by
`execute_rebalance` after the trades executed. -/
structure InvestmentService where
  get_portfolio : Option Portfolio
  get_risk_profile : Option RiskProfile
  execute_trade : RebalanceTrade → Except PyErr TradeResult
  get_portfolio_exec : Option Portfolio

/-- The Notification Service collaborator. `send_rebalance_complete` takes
`rebalance_amount` and `trade_count`; `send_rebalance_error` takes the error
string. A `.error` result models the call raising. -/
structure NotificationService where
  send_rebalance_complete : ℚ → Nat → Except PyErr Unit
  send_rebalance_error : String → Except PyErr Unit

/-- Result of `compute_rebalance`: either a normal return of the persisted
run and optional summary, or a raised exception together with the persisted
state of the run at the time it propagated. -/
inductive ComputeResult
  | ok (log : RebalanceLog) (summary : Option RebalanceSummary)
  | err (log : RebalanceLog) (e : PyErr)
  deriving DecidableEq, Repr

/-- Result of `execute_rebalance`: a normal return of the persisted run, or a
raised exception with the persisted run (when one was loaded). -/
inductive ExecResult
  | ok (log : RebalanceLog)
  | err (log : Option RebalanceLog) (e : PyErr)
  deriving DecidableEq, Repr

/-- The persisted run carried by a `ComputeResult`. -/
def ComputeResult.finalLog : ComputeResult → RebalanceLog
  | .ok log _ => log
  | .err log _ => log

/-- Whether `compute_rebalance` returned normally. -/
def ComputeResult.isOk : ComputeResult → Bool
  | .ok _ _ => true
  | .err _ _ => false

/-- The trades of the summary returned by `compute_rebalance` (empty when no
summary was produced). -/
def ComputeResult.tradesOf : ComputeResult → List RebalanceTrade
  | .ok _ (some s) => s.trades
  | _ => []

/-- The persisted run carried by an `ExecResult`, when one was loaded. -/
def ExecResult.finalLog : ExecResult → Option RebalanceLog
  | .ok log => some log
  | .err log _ => log

/-- The final status carried by an `ExecResult`, when a run was loaded. -/
def ExecResult.statusOf (r : ExecResult) : Option RebalanceStatus :=
  (r.finalLog).map RebalanceLog.status

/-- The exception an `ExecResult` propagates, when it raised one. -/
def ExecResult.raised : ExecResult → Option PyErr
  | .ok _ => none
  | .err _ e => some e

/-- Sum of holding values: `total_value = sum(holding.value for ...)`. -/
def totalValue (p : Portfolio) : ℚ :=
  (p.holdings.map Holding.value).sum

/-- The dict comprehension building current allocations,
`asset_id : holding.value / total_value` per holding (later duplicate keys
overwrite, as in Python). -/
def currentAllocations (holdings : List Holding) (tv : ℚ) :
    List (String × ℚ) :=
  holdings.foldl (fun d h => dictInsert d h.asset_id (h.value / tv)) []

/-- The run record as created at step 1 of `compute_rebalance` (fields the
model keeps; `drift_threshold = drift_threshold or 0.05`). -/
def initLog (trigger_type : RebalanceTriggerType) (drift_threshold : Option ℚ) :
    RebalanceLog :=
  { trigger_type := trigger_type
    status := RebalanceStatus.computing
    before_allocations := none
    after_allocations := none
    suggested_trades := none
    executed_trades := none
    drift_threshold := orDefault drift_threshold (1/20)
    max_drift := 0
    total_value := 0
    rebalance_amount := 0
    error := none
    completed_at := false }

/-- Accumulator of the drift loop of `compute_rebalance` (the `allocations`
dict, the running `max_drift`, and the `needs_rebalance` flag). -/
structure DriftAcc where
  allocations : List (String × AssetAllocation)
  max_drift : ℚ
  needs_rebalance : Bool
  deriving DecidableEq, Repr

/-- One iteration of the drift loop: for a target entry
`(asset_id, target_allocation)`, look up the current allocation (default 0),
compute the drift, find the holding via `next(...)`, record the
`AssetAllocation`, and update `max_drift` and `needs_rebalance`. -/
def driftStep (holdings : List Holding) (current : List (String × ℚ))
    (eff : ℚ) (acc : DriftAcc) (entry : String × ℚ) : DriftAcc :=
  let asset_id := entry.1
  let target_allocation := entry.2
  let current_allocation := dictGet current asset_id 0
  let drift := |current_allocation - target_allocation|
  let holding := holdings.find? (fun h => h.asset_id = asset_id)
  let alloc : AssetAllocation :=
    { asset_id := asset_id
      current_allocation := current_allocation
      target_allocation := target_allocation
      drift := drift
      value := match holding with | some h => h.value | none => 0
      units := match holding with | some h => h.units | none => 0 }
  { allocations := dictInsert acc.allocations asset_id alloc
    max_drift := max acc.max_drift drift
    needs_rebalance := acc.needs_rebalance || decide (drift > eff) }

/-- The drift loop over the risk profile's target allocations. -/
def driftLoop (holdings : List Holding) (current : List (String × ℚ))
    (eff : ℚ) (targets : List (String × ℚ)) : DriftAcc :=
  targets.foldl (driftStep holdings current eff)
    { allocations := [], max_drift := 0, needs_rebalance := false }

/-- Accumulator of the trade-planning loop (`trades` list and the running
`rebalance_amount`). -/
structure PlanAcc where
  trades : List RebalanceTrade
  rebalance_amount : ℚ
  deriving DecidableEq, Repr

/-- One iteration of the trade-planning loop over `allocations.items()`:
`value_diff = total_value * target_allocation - allocation.value`; if
`abs(value_diff) > 0.01` emit a trade (buy when `value_diff > 0`,
`units = abs(value_diff / allocation.value)` when `allocation.value > 0`
else `0.0`) and add `abs(value_diff)` to `rebalance_amount`. -/
def planStep (tv : ℚ) (acc : PlanAcc) (entry : String × AssetAllocation) :
    PlanAcc :=
  let asset_id := entry.1
  let allocation := entry.2
  let current_value := allocation.value
  let target_value := tv * allocation.target_allocation
  let value_diff := target_value - current_value
  if |value_diff| > 1/100 then
    let trade : RebalanceTrade :=
      { asset_id := asset_id
        action := if value_diff > 0 then "buy" else "sell"
        units := if allocation.value > 0 then |value_diff / allocation.value| else 0
        value := |value_diff|
        current_allocation := allocation.current_allocation
        target_allocation := allocation.target_allocation }
    { trades := acc.trades ++ [trade]
      rebalance_amount := acc.rebalance_amount + |value_diff| }
  else
    acc

/-- The trade-planning loop of `compute_rebalance`. -/
def planTrades (tv : ℚ) (allocs : List (String × AssetAllocation)) : PlanAcc :=
  allocs.foldl (planStep tv) { trades := [], rebalance_amount := 0 }

/-- The `except Exception` block of `compute_rebalance`: mark the run failed
with the error message and `completed_at`, send a best-effort error
notification, then re-raise (if the notification itself raises, that
exception propagates instead, the run staying failed). -/
def computeFail (notif : NotificationService) (log : RebalanceLog)
    (e : PyErr) : ComputeResult :=
  let log' :=
    { log with status := RebalanceStatus.failed, error := some e.message,
               completed_at := true }
  match notif.send_rebalance_error e.message with
  | .ok _ => .err log' e
  | .error e2 => .err log' e2

/-- `PortfolioRebalanceService.compute_rebalance`, translated from
`app/modules/portfolio_rebalance/service.py`. The dict comprehension over
holdings raises `ZeroDivisionError` when `total_value` is zero and there is
at least one holding to divide. -/
def compute_rebalance (svc : InvestmentService) (notif : NotificationService)
    (trigger_type : RebalanceTriggerType) (drift_threshold : Option ℚ)
    (force : Bool) : ComputeResult :=
  let log := initLog trigger_type drift_threshold
  match svc.get_portfolio with
  | none => computeFail notif log (PyErr.valueError ("No portfolio found for user"))
  | some pf =>
    match svc.get_risk_profile with
    | none => computeFail notif log (PyErr.valueError ("No risk profile found for user"))
    | some rp =>
      let tv := totalValue pf
      if totalValue pf = 0 ∧ pf.holdings ≠ [] then
        computeFail notif log PyErr.zeroDivisionError
      else
        let current := currentAllocations pf.holdings tv
        let log := { log with before_allocations := some current, total_value := tv }
        let eff := orDefault drift_threshold (1/20)
        let acc := driftLoop pf.holdings current eff rp.allocations
        let log := { log with max_drift := acc.max_drift }
        if acc.needs_rebalance = false ∧ force = false then
          .ok { log with status := RebalanceStatus.completed, completed_at := true } none
        else
          let plan := planTrades tv acc.allocations
          let summary : RebalanceSummary :=
            { total_value := tv
              max_drift := acc.max_drift
              drift_threshold := eff
              rebalance_amount := plan.rebalance_amount
              trade_count := plan.trades.length
              allocations := acc.allocations
              trades := plan.trades }
          let log :=
            { log with
                suggested_trades :=
                  some (plan.trades.foldl (fun d t => dictInsert d t.asset_id t) [])
                rebalance_amount := plan.rebalance_amount }
          .ok log (some summary)

/-- The trade-execution loop of `execute_rebalance`: run the planned trades in
order, accumulating results keyed by asset into a local dict. On a raising
trade the accumulated dict is a local variable and is dropped, exactly as in
the source. -/
def runTrades (svc : InvestmentService) :
    List (String × RebalanceTrade) → List (String × TradeResult) →
    Except PyErr (List (String × TradeResult))
  | [], acc => .ok acc
  | (asset_id, trade) :: rest, acc =>
    match svc.execute_trade trade with
    | .error e => .error e
    | .ok result => runTrades svc rest (dictInsert acc asset_id result)

/-- The `except Exception` block of `execute_rebalance`: mark the run failed,
send a best-effort error notification, re-raise. -/
def executeFail (notif : NotificationService) (log : RebalanceLog)
    (e : PyErr) : ExecResult :=
  let log' :=
    { log with status := RebalanceStatus.failed, error := some e.message,
               completed_at := true }
  match notif.send_rebalance_error e.message with
  | .ok _ => .err (some log') e
  | .error e2 => .err (some log') e2

/-- `PortfolioRebalanceService.execute_rebalance`, translated from
`app/modules/portfolio_rebalance/service.py`. `stored` is the run loaded by
id from the store (`none` when no such run exists). Iterating
`log.suggested_trades.items()` when the field is unset raises an
`AttributeError` inside the guarded block. -/
def execute_rebalance (svc : InvestmentService) (notif : NotificationService)
    (stored : Option RebalanceLog) : ExecResult :=
  match stored with
  | none => .err none (PyErr.valueError ("Rebalance log not found"))
  | some log =>
    if log.status ≠ RebalanceStatus.computing then
      .err (some log) (PyErr.valueError ("Invalid rebalance status"))
    else
      let log := { log with status := RebalanceStatus.executing }
      match log.suggested_trades with
      | none =>
        executeFail notif log
          (PyErr.attributeError ("NoneType object has no attribute items"))
      | some plan =>
        match runTrades svc plan [] with
        | .error e => executeFail notif log e
        | .ok executed =>
          match svc.get_portfolio_exec with
          | none =>
            executeFail notif log
              (PyErr.attributeError ("NoneType object has no attribute holdings"))
          | some pf =>
            let tv := totalValue pf
            if totalValue pf = 0 ∧ pf.holdings ≠ [] then
              executeFail notif log PyErr.zeroDivisionError
            else
              let after := currentAllocations pf.holdings tv
              let log :=
                { log with status := RebalanceStatus.completed,
                           completed_at := true,
                           after_allocations := some after,
                           executed_trades := some executed }
              match notif.send_rebalance_complete log.rebalance_amount executed.length with
              | .ok _ => .ok log
              | .error e => executeFail notif log e

/-- A task enqueued by a trigger for the rebalance worker. -/
structure EnqueuedRebalanceTask where
  trigger_type : RebalanceTriggerType
  force : Bool
  deriving DecidableEq, Repr

/-- `PortfolioRebalanceTriggers.on_deposit`, translated from
`app/modules/portfolio_rebalance/triggers.py`: `if threshold and
amount >= threshold`, enqueue `rebalance_user_portfolio` with
`trigger_type=DEPOSIT, force=True`. A `None` or `0` threshold is falsy. -/
def on_deposit (amount : ℚ) (threshold : Option ℚ) :
    Option EnqueuedRebalanceTask :=
  match threshold with
  | none => none
  | some t =>
    if t ≠ 0 ∧ amount ≥ t then
      some { trigger_type := RebalanceTriggerType.deposit, force := true }
    else
      none

/-- The value of the holding `compute_rebalance` finds for an asset via
`next((h for h in portfolio.holdings if h.asset_id == asset_id), None)`:
the first matching holding's value, `0` when none matches. -/
def holdingValue (holdings : List Holding) (asset_id : String) : ℚ :=
  match holdings.find? (fun h => h.asset_id = asset_id) with
  | some h => h.value
  | none => 0

/-- Maximum drift over the target-profile assets only: the quantity the drift
loop of `compute_rebalance` accumulates, as a standalone function. -/
def maxDriftOverTargets (current : List (String × ℚ))
    (targets : List (String × ℚ)) : ℚ :=
  targets.foldl (fun m entry => max m |dictGet current entry.1 0 - entry.2|) 0

/-- Modelled from the spec (for comparison with the code): the maximum of
the absolute current-vs-target difference over the union of held assets and
target-profile assets, a held asset absent from the target profile
contributing its full current allocation. -/
def specMaxDriftUnion (current : List (String × ℚ))
    (targets : List (String × ℚ)) : ℚ :=
  let unionKeys :=
    current.map Prod.fst ++
      (targets.map Prod.fst).filter (fun a => !(current.map Prod.fst).contains a)
  unionKeys.foldl (fun m a => max m |dictGet current a 0 - dictGet targets a 0|) 0

/-- The trade (if any) that the planning loop emits for one `allocations`
entry: `none` when `abs(value_diff)` is at most the `0.01` dust floor,
otherwise the trade exactly as `planStep` constructs it. -/
def plannedTradeFor (tv : ℚ) (pa : String × AssetAllocation) :
    Option RebalanceTrade :=
  let value_diff := tv * pa.2.target_allocation - pa.2.value
  if |value_diff| > 1/100 then
    some { asset_id := pa.1
           action := if value_diff > 0 then "buy" else "sell"
           units := if pa.2.value > 0 then |value_diff / pa.2.value| else 0
           value := |value_diff|
           current_allocation := pa.2.current_allocation
           target_allocation := pa.2.target_allocation }
  else
    none

/-- The `AssetAllocation` the drift loop records for one target entry. -/
def mkAlloc (holdings : List Holding) (current : List (String × ℚ))
    (e : String × ℚ) : AssetAllocation :=
  { asset_id := e.1
    current_allocation := dictGet current e.1 0
    target_allocation := e.2
    drift := |dictGet current e.1 0 - e.2|
    value := match holdings.find? (fun h => h.asset_id = e.1) with
             | some h => h.value
             | none => 0
    units := match holdings.find? (fun h => h.asset_id = e.1) with
             | some h => h.units
             | none => 0 }

/-- The invariant of the claim on lifecycle timestamps: `completed_at` is set
exactly on runs whose status is terminal (`completed` or `failed`). -/
def CompletedAtIffTerminal (log : RebalanceLog) : Prop :=
  log.completed_at = true ↔
    (log.status = RebalanceStatus.completed ∨ log.status = RebalanceStatus.failed)

/-- Execution artifacts appear only on terminal runs: `after_allocations` and
`executed_trades` are set only when the status is `completed` or `failed`. -/
def ArtifactsOnlyTerminal (log : RebalanceLog) : Prop :=
  (log.after_allocations ≠ none →
    log.status = RebalanceStatus.completed ∨ log.status = RebalanceStatus.failed) ∧
  (log.executed_trades ≠ none →
    log.status = RebalanceStatus.completed ∨ log.status = RebalanceStatus.failed)

/-! Concrete fixtures used by the counterexamples and witnesses. -/

/-- Notification service whose calls all succeed. -/
def notifOk : NotificationService :=
  { send_rebalance_complete := fun _ _ => .ok ()
    send_rebalance_error := fun _ => .ok () }

/-- Notification service whose completion notification raises and whose
error notification succeeds. -/
def notifBadComplete : NotificationService :=
  { send_rebalance_complete := fun _ _ => .error (PyErr.externalError ("smtp unavailable"))
    send_rebalance_error := fun _ => .ok () }

/-- A successful execution result echoing the traded asset. -/
def tradeOkResult (tr : RebalanceTrade) : TradeResult :=
  { info := "filled " ++ tr.asset_id }

/-- A portfolio holding one asset of value zero: total value is zero. -/
def pfZero : Portfolio :=
  { holdings := [{ asset_id := "A", value := 0, units := 0 }] }

/-- Investment service for the zero-total-value scenario. -/
def svcZero : InvestmentService :=
  { get_portfolio := some pfZero
    get_risk_profile := some { allocations := [("A", 1)] }
    execute_trade := fun tr => .ok (tradeOkResult tr)
    get_portfolio_exec := some pfZero }

/-- Portfolio worth 100: asset `A` of value 50 in 10 units (price 5 per
unit), asset `B` of value 50 in 5 units. -/
def pfC3 : Portfolio :=
  { holdings := [{ asset_id := "A", value := 50, units := 10 },
                 { asset_id := "B", value := 50, units := 5 }] }

/-- Risk profile targeting `A` at 3/4 and the unheld asset `C` at 1/4. -/
def rpC3 : RiskProfile :=
  { allocations := [("A", 3/4), ("C", 1/4)] }

/-- Investment service whose risk profile targets `A` at 3/4 and the unheld
asset `C` at 1/4. -/
def svcC3 : InvestmentService :=
  { get_portfolio := some pfC3
    get_risk_profile := some rpC3
    execute_trade := fun tr => .ok (tradeOkResult tr)
    get_portfolio_exec := some pfC3 }

/-- The trade the planner emits for `A` in the `svcC3` scenario. -/
def tradeA_C3 : RebalanceTrade :=
  { asset_id := "A", action := "buy", units := 1/2, value := 25,
    current_allocation := 1/2, target_allocation := 3/4 }

/-- The trade the planner emits for `C` in the `svcC3` scenario. -/
def tradeC_C3 : RebalanceTrade :=
  { asset_id := "C", action := "buy", units := 0, value := 25,
    current_allocation := 0, target_allocation := 1/4 }

/-- The allocation record for `A` in the `svcC3` scenario. -/
def allocA_C3 : AssetAllocation :=
  { asset_id := "A", current_allocation := 1/2, target_allocation := 3/4,
    drift := 1/4, value := 50, units := 10 }

/-- The allocation record for `C` in the `svcC3` scenario. -/
def allocC_C3 : AssetAllocation :=
  { asset_id := "C", current_allocation := 0, target_allocation := 1/4,
    drift := 1/4, value := 0, units := 0 }

/-- The run `compute_rebalance` returns in the `svcC3` scenario. -/
def logC3 : RebalanceLog :=
  { trigger_type := RebalanceTriggerType.manual
    status := RebalanceStatus.computing
    before_allocations := some [("A", 1/2), ("B", 1/2)]
    after_allocations := none
    suggested_trades := some [("A", tradeA_C3), ("C", tradeC_C3)]
    executed_trades := none
    drift_threshold := 1/20
    max_drift := 1/4
    total_value := 100
    rebalance_amount := 50
    error := none
    completed_at := false }

/-- The summary `compute_rebalance` returns in the `svcC3` scenario. -/
def summaryC3 : RebalanceSummary :=
  { total_value := 100
    max_drift := 1/4
    drift_threshold := 1/20
    rebalance_amount := 50
    trade_count := 2
    allocations := [("A", allocA_C3), ("C", allocC_C3)]
    trades := [tradeA_C3, tradeC_C3] }

/-- Investment service whose risk profile targets only `B` at 1/2, while `A`
(half the portfolio) is absent from the target profile. -/
def svcC5 : InvestmentService :=
  { get_portfolio := some pfC3
    get_risk_profile := some { allocations := [("B", 1/2)] }
    execute_trade := fun tr => .ok (tradeOkResult tr)
    get_portfolio_exec := some pfC3 }

/-- Portfolio `A: 0.52, B: 0.48` of total value 100. -/
def pfNoop : Portfolio :=
  { holdings := [{ asset_id := "A", value := 52, units := 1 },
                 { asset_id := "B", value := 48, units := 1 }] }

/-- Investment service for the no-drift scenario: targets `A`/`B` at 1/2. -/
def svcNoop : InvestmentService :=
  { get_portfolio := some pfNoop
    get_risk_profile := some { allocations := [("A", 1/2), ("B", 1/2)] }
    execute_trade := fun tr => .ok (tradeOkResult tr)
    get_portfolio_exec := some pfNoop }

/-- First trade of the three-trade plan. -/
def trA : RebalanceTrade :=
  { asset_id := "A", action := "buy", units := 2, value := 10,
    current_allocation := 1/10, target_allocation := 1/5 }

/-- Second trade of the three-trade plan. -/
def trB : RebalanceTrade :=
  { asset_id := "B", action := "sell", units := 1, value := 10,
    current_allocation := 3/10, target_allocation := 1/5 }

/-- Third trade of the three-trade plan. -/
def trC : RebalanceTrade :=
  { asset_id := "C", action := "buy", units := 4, value := 10,
    current_allocation := 1/10, target_allocation := 1/5 }

/-- A run in status `computing` holding a three-trade plan (A, B, C). -/
def logPlan3 : RebalanceLog :=
  { initLog RebalanceTriggerType.manual none with
      before_allocations := some [("A", 1/10), ("B", 3/10)]
      suggested_trades := some [("A", trA), ("B", trB), ("C", trC)]
      total_value := 100
      max_drift := 1/10
      rebalance_amount := 30 }

/-- Investment service whose `execute_trade` raises exactly on asset `B`
(the second trade of `logPlan3`) and fills every other trade. -/
def svcFailB : InvestmentService :=
  { get_portfolio := some pfC3
    get_risk_profile := some { allocations := [] }
    execute_trade := fun tr =>
      if tr.asset_id = "B" then .error (PyErr.externalError ("trade rejected"))
      else .ok (tradeOkResult tr)
    get_portfolio_exec := some pfC3 }

/-- A run in status `computing` holding a one-trade plan. -/
def logPlan1 : RebalanceLog :=
  { initLog RebalanceTriggerType.manual none with
      before_allocations := some [("A", 1/10)]
      suggested_trades := some [("A", trA)]
      total_value := 100
      max_drift := 1/10
      rebalance_amount := 10 }

/-- Investment service for which every trade fills and the re-fetched
portfolio is well-formed (nonzero total value). -/
def svcExecOk : InvestmentService :=
  { get_portfolio := some pfC3
    get_risk_profile := some { allocations := [] }
    execute_trade := fun tr => .ok (tradeOkResult tr)
    get_portfolio_exec := some pfNoop }

/-- A run already in the terminal status `completed`. -/
def logDone : RebalanceLog :=
  { initLog RebalanceTriggerType.manual none with
      status := RebalanceStatus.completed
      before_allocations := some [("A", 1)]
      completed_at := true }

/-! Evaluation helpers: string comparisons the concrete runs meet, in the
shape the unfolded list functions leave them. -/

/-- Distinctness of the asset names `A` and `B`. -/
theorem str_AB : (("A" : String) = "B") = False := by
  simp

/-- Distinctness of the asset names `B` and `A`. -/
theorem str_BA : (("B" : String) = "A") = False := by
  simp

/-- Distinctness of the asset names `A` and `C`. -/
theorem str_AC : (("A" : String) = "C") = False := by
  simp

/-- Distinctness of the asset names `C` and `A`. -/
theorem str_CA : (("C" : String) = "A") = False := by
  simp

/-- Distinctness of the asset names `B` and `C`. -/
theorem str_BC : (("B" : String) = "C") = False := by
  simp

/-- Distinctness of the asset names `C` and `B`. -/
theorem str_CB : (("C" : String) = "B") = False := by
  simp

/-! Shared lemmas about the loops of the service. -/

/-- Unfolding lemma: `compute_rebalance` when both lookups succeed and the
holdings do not divide by zero. -/
theorem compute_rebalance_eq (svc : InvestmentService)
    (notif : NotificationService) (tt : RebalanceTriggerType) (dt : Option ℚ)
    (force : Bool) (pf : Portfolio) (rp : RiskProfile)
    (hpf : svc.get_portfolio = some pf) (hrp : svc.get_risk_profile = some rp)
    (hnz : ¬(totalValue pf = 0 ∧ pf.holdings ≠ [])) :
    compute_rebalance svc notif tt dt force =
      (let tv := totalValue pf
       let current := currentAllocations pf.holdings tv
       let eff := orDefault dt (1/20)
       let acc := driftLoop pf.holdings current eff rp.allocations
       if acc.needs_rebalance = false ∧ force = false then
         ComputeResult.ok
           { initLog tt dt with
               before_allocations := some current, total_value := tv,
               max_drift := acc.max_drift,
               status := RebalanceStatus.completed, completed_at := true }
           none
       else
         let plan := planTrades tv acc.allocations
         ComputeResult.ok
           { initLog tt dt with
               before_allocations := some current, total_value := tv,
               max_drift := acc.max_drift,
               suggested_trades :=
                 some (plan.trades.foldl (fun d t => dictInsert d t.asset_id t) []),
               rebalance_amount := plan.rebalance_amount }
           (some { total_value := tv, max_drift := acc.max_drift,
                   drift_threshold := eff,
                   rebalance_amount := plan.rebalance_amount,
                   trade_count := plan.trades.length,
                   allocations := acc.allocations, trades := plan.trades })) := by
  simp only [compute_rebalance, hpf, hrp]
  rw [if_neg hnz]

/-- Unfolding lemma: `execute_rebalance` on a run in status `computing`
holding a trade plan. -/
theorem execute_rebalance_computing (svc : InvestmentService)
    (notif : NotificationService) (log : RebalanceLog)
    (plan : List (String × RebalanceTrade))
    (hst : log.status = RebalanceStatus.computing)
    (hplan : log.suggested_trades = some plan) :
    execute_rebalance svc notif (some log) =
      (match runTrades svc plan [] with
       | .error e => executeFail notif { log with status := RebalanceStatus.executing } e
       | .ok executed =>
         match svc.get_portfolio_exec with
         | none =>
           executeFail notif { log with status := RebalanceStatus.executing }
             (PyErr.attributeError ("NoneType object has no attribute holdings"))
         | some pf =>
           if totalValue pf = 0 ∧ pf.holdings ≠ [] then
             executeFail notif { log with status := RebalanceStatus.executing }
               PyErr.zeroDivisionError
           else
             let done :=
               { log with status := RebalanceStatus.completed, completed_at := true,
                          after_allocations :=
                            some (currentAllocations pf.holdings (totalValue pf)),
                          executed_trades := some executed }
             match notif.send_rebalance_complete log.rebalance_amount executed.length with
             | .ok _ => ExecResult.ok done
             | .error e => executeFail notif done e) := by
  obtain ⟨tt, st, ba, aa, stg, ext, dth, md, tv, ra, er, ca⟩ := log
  simp only at hst hplan
  subst hst
  subst hplan
  simp only [execute_rebalance]
  rw [if_neg (by simp)]

/-- The trade loop raises the error of the first raising trade: if trades
before position `k` all fill and the trade at `k` raises `e`, `runTrades`
returns that error (dropping the accumulated results). -/
theorem runTrades_error_at (svc : InvestmentService) (e : PyErr) :
    ∀ (plan : List (String × RebalanceTrade)) (k : Nat) (hk : k < plan.length)
      (acc : List (String × TradeResult)),
      (∀ i, (hi : i < k) →
        ∃ r, svc.execute_trade (plan.get ⟨i, Nat.lt_trans hi hk⟩).2 = Except.ok r) →
      svc.execute_trade (plan.get ⟨k, hk⟩).2 = Except.error e →
      runTrades svc plan acc = Except.error e := by
  intro plan
  induction plan with
  | nil =>
    intro k hk
    exact absurd hk (by simp)
  | cons hd tl ih =>
    obtain ⟨a, t⟩ := hd
    intro k hk acc hprev hfail
    cases k with
    | zero =>
      simp only [List.get] at hfail
      simp only [runTrades, hfail]
    | succ k' =>
      obtain ⟨r, hr⟩ := hprev 0 (Nat.succ_pos k')
      simp only [List.get] at hr
      simp only [runTrades, hr]
      refine ih k' (Nat.lt_of_succ_lt_succ hk) _ (fun i hi => ?_) ?_
      · obtain ⟨r', hr'⟩ := hprev (i + 1) (Nat.succ_lt_succ hi)
        exact ⟨r', hr'⟩
      · exact hfail

/-- The planning fold appends exactly the trades `plannedTradeFor` picks. -/
theorem planFold_trades (tv : ℚ) :
    ∀ (allocs : List (String × AssetAllocation)) (acc : PlanAcc),
      (List.foldl (planStep tv) acc allocs).trades =
        acc.trades ++ allocs.filterMap (plannedTradeFor tv) := by
  intro allocs
  induction allocs with
  | nil =>
    intro acc
    simp
  | cons pa rest ih =>
    intro acc
    rw [List.foldl_cons, ih]
    simp only [planStep, plannedTradeFor, List.filterMap_cons]
    split_ifs <;> simp

/-- The planning fold adds exactly the emitted trades' values to the running
rebalance amount. -/
theorem planFold_amount (tv : ℚ) :
    ∀ (allocs : List (String × AssetAllocation)) (acc : PlanAcc),
      (List.foldl (planStep tv) acc allocs).rebalance_amount =
        acc.rebalance_amount +
          ((allocs.filterMap (plannedTradeFor tv)).map RebalanceTrade.value).sum := by
  intro allocs
  induction allocs with
  | nil =>
    intro acc
    simp
  | cons pa rest ih =>
    intro acc
    rw [List.foldl_cons, ih]
    simp only [planStep, plannedTradeFor, List.filterMap_cons]
    split_ifs <;> simp [add_assoc]

/-- The trades of the plan are the per-allocation picks, in order. -/
theorem planTrades_trades_eq (tv : ℚ) (allocs : List (String × AssetAllocation)) :
    (planTrades tv allocs).trades = allocs.filterMap (plannedTradeFor tv) := by
  rw [planTrades, planFold_trades]
  rfl

/-- The rebalance amount of the plan is the sum of the emitted values. -/
theorem planTrades_amount_eq (tv : ℚ) (allocs : List (String × AssetAllocation)) :
    (planTrades tv allocs).rebalance_amount =
      ((allocs.filterMap (plannedTradeFor tv)).map RebalanceTrade.value).sum := by
  rw [planTrades, planFold_amount]
  simp

/-- The drift fold's running maximum is the plain fold of the per-target
drifts. -/
theorem driftFold_max (holdings : List Holding) (current : List (String × ℚ))
    (eff : ℚ) :
    ∀ (targets : List (String × ℚ)) (acc : DriftAcc),
      (List.foldl (driftStep holdings current eff) acc targets).max_drift =
        List.foldl (fun m e => max m |dictGet current e.1 0 - e.2|)
          acc.max_drift targets := by
  intro targets
  induction targets with
  | nil =>
    intro acc
    rfl
  | cons e rest ih =>
    intro acc
    rw [List.foldl_cons, List.foldl_cons, ih]
    rfl

/-- The drift loop's `max_drift` is `maxDriftOverTargets`. -/
theorem driftLoop_max_eq (holdings : List Holding) (current : List (String × ℚ))
    (eff : ℚ) (targets : List (String × ℚ)) :
    (driftLoop holdings current eff targets).max_drift =
      maxDriftOverTargets current targets := by
  rw [driftLoop, driftFold_max]
  rfl

/-- A fold of maxima never drops below its start. -/
theorem le_driftFoldl (current : List (String × ℚ)) :
    ∀ (targets : List (String × ℚ)) (m0 : ℚ),
      m0 ≤ List.foldl (fun m e => max m |dictGet current e.1 0 - e.2|) m0 targets := by
  intro targets
  induction targets with
  | nil =>
    intro m0
    exact le_refl m0
  | cons e rest ih =>
    intro m0
    rw [List.foldl_cons]
    exact le_trans (le_max_left _ _) (ih _)

/-- `maxDriftOverTargets` is nonnegative. -/
theorem maxDriftOverTargets_nonneg (current : List (String × ℚ))
    (targets : List (String × ℚ)) : 0 ≤ maxDriftOverTargets current targets :=
  le_driftFoldl current targets 0

/-- The drift fold keeps `needs_rebalance` equal to "the threshold is
strictly exceeded by the running maximum". -/
theorem driftFold_needs (holdings : List Holding) (current : List (String × ℚ))
    (eff : ℚ) :
    ∀ (targets : List (String × ℚ)) (acc : DriftAcc),
      acc.needs_rebalance = decide (eff < acc.max_drift) →
      (List.foldl (driftStep holdings current eff) acc targets).needs_rebalance =
        decide (eff <
          (List.foldl (driftStep holdings current eff) acc targets).max_drift) := by
  intro targets
  induction targets with
  | nil =>
    intro acc hacc
    exact hacc
  | cons e rest ih =>
    intro acc hacc
    simp only [List.foldl_cons]
    apply ih
    show (acc.needs_rebalance || _) = decide (eff < max acc.max_drift _)
    rw [hacc]
    simp [lt_max_iff, gt_iff_lt, Bool.or_comm]

/-- For a nonnegative threshold, the drift loop flags `needs_rebalance`
exactly when its `max_drift` strictly exceeds the threshold. -/
theorem driftLoop_needs_eq (holdings : List Holding)
    (current : List (String × ℚ)) (eff : ℚ) (targets : List (String × ℚ))
    (heff : 0 ≤ eff) :
    (driftLoop holdings current eff targets).needs_rebalance =
      decide (eff < (driftLoop holdings current eff targets).max_drift) := by
  rw [driftLoop]
  apply driftFold_needs
  show false = decide (eff < 0)
  rw [decide_eq_false (not_lt.mpr heff)]

/-- With pairwise-distinct target keys none of which is already present, the
drift fold appends one `mkAlloc` entry per target, in order. -/
theorem driftFold_allocs (holdings : List Holding)
    (current : List (String × ℚ)) (eff : ℚ) :
    ∀ (targets : List (String × ℚ)) (acc : DriftAcc),
      (∀ a, a ∈ targets.map Prod.fst →
        acc.allocations.any (fun p => p.1 = a) = false) →
      (targets.map Prod.fst).Nodup →
      (List.foldl (driftStep holdings current eff) acc targets).allocations =
        acc.allocations ++ targets.map (fun e => (e.1, mkAlloc holdings current e)) := by
  intro targets
  induction targets with
  | nil =>
    intro acc _ _
    simp
  | cons e rest ih =>
    intro acc hfresh hnd
    rw [List.foldl_cons, ih]
    · have hins : (driftStep holdings current eff acc e).allocations =
          acc.allocations ++ [(e.1, mkAlloc holdings current e)] := by
        show dictInsert acc.allocations e.1 _ = _
        rw [dictInsert, if_neg]
        · rfl
        · rw [hfresh e.1 (by simp)]
          simp
      rw [hins, List.append_assoc]
      simp
    · intro a ha
      have hne : e.1 ≠ a := by
        intro hcontra
        rw [List.map_cons, List.nodup_cons] at hnd
        exact hnd.1 (hcontra ▸ ha)
      have hins : (driftStep holdings current eff acc e).allocations =
          acc.allocations ++ [(e.1, mkAlloc holdings current e)] := by
        show dictInsert acc.allocations e.1 _ = _
        rw [dictInsert, if_neg]
        · rfl
        · rw [hfresh e.1 (by simp)]
          simp
      rw [hins]
      simp only [List.any_append, Bool.or_eq_false_iff]
      refine ⟨hfresh a (by simp [ha]), ?_⟩
      simp [hne]
    · rw [List.map_cons, List.nodup_cons] at hnd
      exact hnd.2

/-- The allocations dict the drift loop builds, for distinct target keys. -/
theorem driftLoop_allocs_eq (holdings : List Holding)
    (current : List (String × ℚ)) (eff : ℚ) (targets : List (String × ℚ))
    (hnd : (targets.map Prod.fst).Nodup) :
    (driftLoop holdings current eff targets).allocations =
      targets.map (fun e => (e.1, mkAlloc holdings current e)) := by
  rw [driftLoop, driftFold_allocs holdings current eff targets
      { allocations := [], max_drift := 0, needs_rebalance := false }
      (fun a _ => rfl) hnd]
  rfl

/-- In a list whose keys are pairwise distinct, a key determines its value. -/
theorem keys_nodup_eq_val {α : Type} :
    ∀ (l : List (String × α)), (l.map Prod.fst).Nodup →
      ∀ (a : String) (v w : α), (a, v) ∈ l → (a, w) ∈ l → v = w := by
  intro l
  induction l with
  | nil =>
    intro _ a v w hv
    exact absurd hv (by simp)
  | cons hd tl ih =>
    intro hnd a v w hv hw
    rw [List.map_cons, List.nodup_cons] at hnd
    rcases List.mem_cons.mp hv with hv1 | hv2
    · rcases List.mem_cons.mp hw with hw1 | hw2
      · exact congrArg Prod.snd (hv1.trans hw1.symm)
      · exfalso
        apply hnd.1
        have hmem : a ∈ List.map Prod.fst tl := List.mem_map_of_mem Prod.fst hw2
        rw [← hv1]
        exact hmem
    · rcases List.mem_cons.mp hw with hw1 | hw2
      · exfalso
        apply hnd.1
        have hmem : a ∈ List.map Prod.fst tl := List.mem_map_of_mem Prod.fst hv2
        rw [← hw1]
        exact hmem
      · exact ih hnd.2 a v w hv2 hw2

/-- `computeFail` always re-raises: it never returns a normal result. -/
theorem computeFail_ne_ok (notif : NotificationService) (log : RebalanceLog)
    (e : PyErr) (log' : RebalanceLog) (s : Option RebalanceSummary) :
    computeFail notif log e ≠ ComputeResult.ok log' s := by
  unfold computeFail
  cases notif.send_rebalance_error e.message <;> intro hcontra <;>
    exact ComputeResult.noConfusion hcontra

/-- The run `computeFail` leaves behind. -/
theorem computeFail_finalLog (notif : NotificationService) (log : RebalanceLog)
    (e : PyErr) :
    (computeFail notif log e).finalLog =
      { log with status := RebalanceStatus.failed, error := some e.message,
                 completed_at := true } := by
  unfold computeFail
  cases notif.send_rebalance_error e.message <;> rfl

/-- The run `executeFail` leaves behind. -/
theorem executeFail_finalLog (notif : NotificationService) (log : RebalanceLog)
    (e : PyErr) :
    (executeFail notif log e).finalLog =
      some { log with status := RebalanceStatus.failed, error := some e.message,
                      completed_at := true } := by
  unfold executeFail
  cases notif.send_rebalance_error e.message <;> rfl

/-- `executeFail` always re-raises an exception. -/
theorem executeFail_raised_ne_none (notif : NotificationService)
    (log : RebalanceLog) (e : PyErr) :
    (executeFail notif log e).raised ≠ none := by
  unfold executeFail
  cases notif.send_rebalance_error e.message <;> simp [ExecResult.raised]

/-- The fields of the run a final `executeFail` state carries. -/
theorem executeFail_invariant (notif : NotificationService) (l : RebalanceLog)
    (e : PyErr) (log' : RebalanceLog)
    (hfin : (executeFail notif l e).finalLog = some log') :
    log'.status = RebalanceStatus.failed ∧ log'.completed_at = true ∧
    log'.after_allocations = l.after_allocations ∧
    log'.executed_trades = l.executed_trades := by
  rw [executeFail_finalLog] at hfin
  obtain rfl := Option.some_inj.mp hfin
  exact ⟨rfl, rfl, rfl, rfl⟩

/-- Unfolding lemma: `execute_rebalance` on a computing run with no stored
trade plan raises inside the guarded block. -/
theorem execute_rebalance_computing_noplan (svc : InvestmentService)
    (notif : NotificationService) (log : RebalanceLog)
    (hst : log.status = RebalanceStatus.computing)
    (hplan : log.suggested_trades = none) :
    execute_rebalance svc notif (some log) =
      executeFail notif { log with status := RebalanceStatus.executing }
        (PyErr.attributeError ("NoneType object has no attribute items")) := by
  obtain ⟨tt, st, ba, aa, stg, ext, dth, md, tv, ra, er, ca⟩ := log
  simp only at hst hplan
  subst hst
  subst hplan
  simp only [execute_rebalance]
  rw [if_neg (by simp)]

/-- The target allocation `mkAlloc` records. -/
theorem mkAlloc_target (holdings : List Holding) (current : List (String × ℚ))
    (e : String × ℚ) : (mkAlloc holdings current e).target_allocation = e.2 := rfl

/-- The holding value `mkAlloc` records. -/
theorem mkAlloc_value (holdings : List Holding) (current : List (String × ℚ))
    (e : String × ℚ) :
    (mkAlloc holdings current e).value = holdingValue holdings e.1 := rfl

/-- What an emitted trade of the planner looks like: its asset, its value,
its action, and the dust-floor bound its value difference satisfies. -/
theorem plannedTradeFor_spec (tv : ℚ) (pa : String × AssetAllocation)
    (tr : RebalanceTrade) (h : plannedTradeFor tv pa = some tr) :
    tr.asset_id = pa.1 ∧
    tr.value = |tv * pa.2.target_allocation - pa.2.value| ∧
    (tr.action = "buy" ↔ 0 < tv * pa.2.target_allocation - pa.2.value) ∧
    1/100 < |tv * pa.2.target_allocation - pa.2.value| := by
  unfold plannedTradeFor at h
  dsimp only at h
  by_cases hcond : |tv * pa.2.target_allocation - pa.2.value| > 1/100
  · rw [if_pos hcond] at h
    obtain rfl := Option.some_inj.mp h
    refine ⟨rfl, rfl, ?_, gt_iff_lt.mp hcond⟩
    dsimp only
    by_cases hbuy : tv * pa.2.target_allocation - pa.2.value > 0
    · rw [if_pos hbuy]
      exact ⟨fun _ => gt_iff_lt.mp hbuy, fun _ => rfl⟩
    · rw [if_neg hbuy]
      constructor
      · intro hsell
        exact absurd hsell (by decide)
      · intro hlt
        exact absurd (gt_iff_lt.mpr hlt) hbuy
  · rw [if_neg hcond] at h
    exact absurd h (by simp)

/-- A value difference above the dust floor always yields a trade for its
asset. -/
theorem plannedTradeFor_of_big (tv : ℚ) (pa : String × AssetAllocation)
    (hcond : 1/100 < |tv * pa.2.target_allocation - pa.2.value|) :
    ∃ tr, plannedTradeFor tv pa = some tr ∧ tr.asset_id = pa.1 := by
  unfold plannedTradeFor
  dsimp only
  rw [if_pos (gt_iff_lt.mpr hcond)]
  exact ⟨_, rfl, rfl⟩

/-- A failed run with its completion timestamp set satisfies both lifecycle
invariants outright. -/
theorem failed_state_invariants (log' : RebalanceLog)
    (hs : log'.status = RebalanceStatus.failed) (hc : log'.completed_at = true) :
    CompletedAtIffTerminal log' ∧ ArtifactsOnlyTerminal log' :=
  ⟨⟨fun _ => Or.inr hs, fun _ => hc⟩, ⟨fun _ => Or.inr hs, fun _ => Or.inr hs⟩⟩

/-! Claim theorems. -/

/-- C2: counterexample. For the portfolio whose single holding `A` has value
0 (total value 0), `compute_rebalance` is not skipped and not marked
completed as a no-op: the current-allocation computation raises
`ZeroDivisionError`, the run is marked failed with that error, and the
exception propagates to the caller. -/
theorem C2_zero_total_counterexample :
    (compute_rebalance svcZero notifOk RebalanceTriggerType.manual none false).finalLog.status
        = RebalanceStatus.failed ∧
    (compute_rebalance svcZero notifOk RebalanceTriggerType.manual none false).finalLog.error
        = some ("float division by zero") ∧
    (compute_rebalance svcZero notifOk RebalanceTriggerType.manual none false).isOk = false := by
  norm_num [compute_rebalance, computeFail, initLog, totalValue, svcZero, pfZero, notifOk,
    ComputeResult.finalLog, ComputeResult.isOk, PyErr.message]

/-- C5: counterexample. For the portfolio holding `A` and `B` half-half with
a target profile naming only `B` at 1/2, the persisted `max_drift` is 0 (the
drift loop ranges over target-profile assets only), while the union-of-held-
and-target maximum the claim states is 1/2 (the held asset `A` is absent
from the target profile). -/
theorem C5_union_drift_counterexample :
    (compute_rebalance svcC5 notifOk RebalanceTriggerType.scheduled none false).finalLog.max_drift
        = 0 ∧
    specMaxDriftUnion (currentAllocations pfC3.holdings (totalValue pfC3)) [("B", 1/2)]
        = 1/2 ∧
    (compute_rebalance svcC5 notifOk RebalanceTriggerType.scheduled none false).finalLog.max_drift
        ≠ specMaxDriftUnion (currentAllocations pfC3.holdings (totalValue pfC3)) [("B", 1/2)] := by
  norm_num [compute_rebalance, computeFail, initLog, totalValue, svcC5, pfC3, notifOk,
    ComputeResult.finalLog, currentAllocations, dictInsert, dictGet, orDefault, driftLoop,
    driftStep, planTrades, planStep, specMaxDriftUnion, List.find?, List.foldl, List.any,
    List.filter, List.contains, List.elem, str_AB, str_BA,
    abs_eq_max_neg, max_def]

/-- C8: counterexample. A no-op completion (drift 0.02 below the 0.05
threshold, not forced) leaves a run with `status = completed` and
`completed_at` set whose `after_allocations` and `executed_trades` are both
unset, so the three fields are not set if and only if the status is terminal
as the claim states. -/
theorem C8_noop_completion_counterexample :
    (compute_rebalance svcNoop notifOk RebalanceTriggerType.scheduled none false).finalLog.status
        = RebalanceStatus.completed ∧
    (compute_rebalance svcNoop notifOk RebalanceTriggerType.scheduled none false).finalLog.completed_at
        = true ∧
    (compute_rebalance svcNoop notifOk RebalanceTriggerType.scheduled none false).finalLog.after_allocations
        = none ∧
    (compute_rebalance svcNoop notifOk RebalanceTriggerType.scheduled none false).finalLog.executed_trades
        = none := by
  norm_num [compute_rebalance, computeFail, initLog, totalValue, svcNoop, pfNoop, notifOk,
    ComputeResult.finalLog, currentAllocations, dictInsert, dictGet, orDefault, driftLoop,
    driftStep, planTrades, planStep, List.find?, List.foldl, List.any, str_AB, str_BA, abs_eq_max_neg, max_def]

/-- C8 (amended): across the final persisted run states, `completed_at` is
set iff the status is terminal (`completed` or `failed`); but
`compute_rebalance` never sets `after_allocations` or `executed_trades`
(even on completed no-op or failed runs), and `execute_rebalance` only
guarantees the two artifact fields are confined to terminal states — they
are unset on failed executions and set on completed ones. -/
theorem C8_terminal_fields_amended :
    (∀ (svc : InvestmentService) (notif : NotificationService)
       (tt : RebalanceTriggerType) (dt : Option ℚ) (force : Bool),
      CompletedAtIffTerminal (compute_rebalance svc notif tt dt force).finalLog ∧
      (compute_rebalance svc notif tt dt force).finalLog.after_allocations = none ∧
      (compute_rebalance svc notif tt dt force).finalLog.executed_trades = none) ∧
    (∀ (svc : InvestmentService) (notif : NotificationService)
       (log log' : RebalanceLog),
      CompletedAtIffTerminal log → ArtifactsOnlyTerminal log →
      (execute_rebalance svc notif (some log)).finalLog = some log' →
      CompletedAtIffTerminal log' ∧ ArtifactsOnlyTerminal log') := by
  constructor
  · intro svc notif tt dt force
    obtain ⟨gp, grp, et, gpe⟩ := svc
    simp only [compute_rebalance]
    cases gp with
    | none =>
      rw [computeFail_finalLog]
      simp [CompletedAtIffTerminal, initLog]
    | some pf =>
      cases grp with
      | none =>
        rw [computeFail_finalLog]
        simp [CompletedAtIffTerminal, initLog]
      | some rp =>
        dsimp only
        by_cases hz : totalValue pf = 0 ∧ pf.holdings ≠ []
        · rw [if_pos hz, computeFail_finalLog]
          simp [CompletedAtIffTerminal, initLog]
        · rw [if_neg hz]
          split_ifs with hb
          · simp [CompletedAtIffTerminal, ComputeResult.finalLog, initLog]
          · simp [CompletedAtIffTerminal, ComputeResult.finalLog, initLog]
  · intro svc notif log log' h1 h2 hfin
    by_cases hst : log.status = RebalanceStatus.computing
    · cases hplan : log.suggested_trades with
      | none =>
        rw [execute_rebalance_computing_noplan svc notif log hst hplan] at hfin
        obtain ⟨hs, hc, _, _⟩ := executeFail_invariant _ _ _ _ hfin
        exact failed_state_invariants log' hs hc
      | some plan =>
        rw [execute_rebalance_computing svc notif log plan hst hplan] at hfin
        cases hrun : runTrades svc plan [] with
        | error e =>
          rw [hrun] at hfin
          dsimp only at hfin
          obtain ⟨hs, hc, _, _⟩ := executeFail_invariant _ _ _ _ hfin
          exact failed_state_invariants log' hs hc
        | ok executed =>
          rw [hrun] at hfin
          dsimp only at hfin
          cases hpe : svc.get_portfolio_exec with
          | none =>
            rw [hpe] at hfin
            dsimp only at hfin
            obtain ⟨hs, hc, _, _⟩ := executeFail_invariant _ _ _ _ hfin
            exact failed_state_invariants log' hs hc
          | some pf =>
            rw [hpe] at hfin
            dsimp only at hfin
            by_cases hz : totalValue pf = 0 ∧ pf.holdings ≠ []
            · rw [if_pos hz] at hfin
              obtain ⟨hs, hc, _, _⟩ := executeFail_invariant _ _ _ _ hfin
              exact failed_state_invariants log' hs hc
            · rw [if_neg hz] at hfin
              cases hsend : notif.send_rebalance_complete log.rebalance_amount
                  executed.length with
              | ok u =>
                rw [hsend] at hfin
                dsimp only [ExecResult.finalLog] at hfin
                obtain rfl := Option.some_inj.mp hfin
                exact ⟨⟨fun _ => Or.inl rfl, fun _ => rfl⟩,
                  ⟨fun _ => Or.inl rfl, fun _ => Or.inl rfl⟩⟩
              | error e =>
                rw [hsend] at hfin
                dsimp only at hfin
                obtain ⟨hs, hc, _, _⟩ := executeFail_invariant _ _ _ _ hfin
                exact failed_state_invariants log' hs hc
    · simp only [execute_rebalance] at hfin
      rw [if_pos hst] at hfin
      dsimp only [ExecResult.finalLog] at hfin
      obtain rfl := Option.some_inj.mp hfin
      exact ⟨h1, h2⟩

/-- C1: counterexample. Executing the three-trade plan of `logPlan3` against
a service that fills trade 1 (`A`) and raises on trade 2 (`B`) marks the run
failed with the error and re-raises, but `executed_trades` is left unset:
the result of trade 1 is discarded, not preserved as the claim states. -/
theorem C1_partial_results_counterexample :
    execute_rebalance svcFailB notifOk (some logPlan3) =
      ExecResult.err
        (some { logPlan3 with status := RebalanceStatus.failed,
                              error := some ("trade rejected"),
                              completed_at := true })
        (PyErr.externalError ("trade rejected")) ∧
    ({ logPlan3 with status := RebalanceStatus.failed,
                     error := some ("trade rejected"),
                     completed_at := true } : RebalanceLog).executed_trades = none := by
  norm_num [execute_rebalance, executeFail, runTrades, initLog, svcFailB, pfC3, notifOk,
    logPlan3, trA, trB, trC, tradeOkResult, dictInsert, PyErr.message, List.any,
    str_AB, str_BA, str_CA, str_CB]

/-- C1 (amended): if the Investment Service's `execute_trade` raises `e` on
the k-th trade of a computing run's plan (all earlier trades filling), then
`execute_rebalance` marks the run failed with `error = str(e)` and
`completed_at` set and re-raises `e` — but `executed_trades` is left as it
was (unset): the results of trades 1..k-1 are discarded, not preserved. -/
theorem C1_partial_failure_amended (svc : InvestmentService)
    (notif : NotificationService) (log : RebalanceLog)
    (plan : List (String × RebalanceTrade)) (k : Nat) (e : PyErr)
    (hk : k < plan.length)
    (hst : log.status = RebalanceStatus.computing)
    (hplan : log.suggested_trades = some plan)
    (hprev : ∀ i, (hi : i < k) →
      ∃ r, svc.execute_trade (plan.get ⟨i, Nat.lt_trans hi hk⟩).2 = Except.ok r)
    (hfail : svc.execute_trade (plan.get ⟨k, hk⟩).2 = Except.error e)
    (hn : notif.send_rebalance_error e.message = Except.ok ()) :
    execute_rebalance svc notif (some log) =
      ExecResult.err
        (some { log with status := RebalanceStatus.failed,
                         error := some e.message, completed_at := true })
        e := by
  rw [execute_rebalance_computing svc notif log plan hst hplan]
  rw [runTrades_error_at svc e plan k hk [] hprev hfail]
  simp only [executeFail, hn]

/-- C1 (amended), witnessed at the three-trade plan failing on trade 2: the
run is failed with the trade error and trade 1's result is not persisted. -/
theorem C1_partial_failure_amended_witness :
    execute_rebalance svcFailB notifOk (some logPlan3) =
      ExecResult.err
        (some { logPlan3 with status := RebalanceStatus.failed,
                              error := some ("trade rejected"),
                              completed_at := true })
        (PyErr.externalError ("trade rejected")) :=
  C1_partial_failure_amended svcFailB notifOk logPlan3
    [("A", trA), ("B", trB), ("C", trC)] 1 (PyErr.externalError ("trade rejected"))
    (by simp) rfl rfl
    (fun i hi => by
      cases i with
      | zero => exact ⟨tradeOkResult trA, by simp [svcFailB, trA, str_AB, List.get]⟩
      | succ n => exact absurd hi (by omega))
    (by simp [svcFailB, trB, List.get]) rfl

/-- C2 (amended): for a portfolio whose holdings sum to zero total value and
contain at least one holding, the current-allocation computation is not
skipped: it raises `ZeroDivisionError`, the run is marked failed with that
message (not completed as a no-op), and the exception propagates. -/
theorem C2_zero_total_amended (svc : InvestmentService)
    (notif : NotificationService) (tt : RebalanceTriggerType) (dt : Option ℚ)
    (force : Bool) (pf : Portfolio) (rp : RiskProfile)
    (hpf : svc.get_portfolio = some pf) (hrp : svc.get_risk_profile = some rp)
    (h0 : totalValue pf = 0) (hne : pf.holdings ≠ [])
    (hn : notif.send_rebalance_error ("float division by zero") = Except.ok ()) :
    compute_rebalance svc notif tt dt force =
      ComputeResult.err
        { initLog tt dt with status := RebalanceStatus.failed,
                             error := some ("float division by zero"),
                             completed_at := true }
        PyErr.zeroDivisionError := by
  simp only [compute_rebalance, hpf, hrp]
  rw [if_pos ⟨h0, hne⟩]
  simp only [computeFail, PyErr.message, hn]

/-- C2 (amended), witnessed at the single zero-value holding. -/
theorem C2_zero_total_amended_witness :
    compute_rebalance svcZero notifOk RebalanceTriggerType.manual none false =
      ComputeResult.err
        { initLog RebalanceTriggerType.manual none with
            status := RebalanceStatus.failed,
            error := some ("float division by zero"), completed_at := true }
        PyErr.zeroDivisionError :=
  C2_zero_total_amended svcZero notifOk RebalanceTriggerType.manual none false pfZero
    { allocations := [("A", 1)] } rfl rfl (by norm_num [totalValue, pfZero])
    (by simp [pfZero]) rfl

/-- C3 (amended): planning is a total function of the allocations — it
cannot fail the run and consults no Investment Service reference price — and
every emitted trade has `units = abs(value_diff) / allocation.value` when
`allocation.value > 0` and `units = 0` otherwise, so an asset with zero
current value (in particular a buy from zero units) is silently emitted with
zero units. -/
theorem C3_units_amended (tv : ℚ) (allocs : List (String × AssetAllocation)) :
    (planTrades tv allocs).trades = allocs.filterMap (plannedTradeFor tv) ∧
    (∀ pa : String × AssetAllocation, ∀ tr : RebalanceTrade,
      plannedTradeFor tv pa = some tr →
      tr.units = (if 0 < pa.2.value
        then |tv * pa.2.target_allocation - pa.2.value| / pa.2.value
        else 0)) := by
  refine ⟨planTrades_trades_eq tv allocs, ?_⟩
  intro pa tr htr
  unfold plannedTradeFor at htr
  dsimp only at htr
  by_cases hcond : |tv * pa.2.target_allocation - pa.2.value| > 1/100
  · rw [if_pos hcond] at htr
    by_cases hv : pa.2.value > 0
    · rw [if_pos hv] at htr
      obtain rfl := Option.some_inj.mp htr
      dsimp only
      rw [if_pos (gt_iff_lt.mp hv), abs_div, abs_of_pos (gt_iff_lt.mp hv)]
    · rw [if_neg hv] at htr
      obtain rfl := Option.some_inj.mp htr
      dsimp only
      rw [if_neg (fun hlt => hv (gt_iff_lt.mpr hlt))]
  · rw [if_neg hcond] at htr
    exact absurd htr (by simp)

/-- C5 (amended): for every run that reaches the drift loop, the persisted
`max_drift` is the maximum of the absolute current-vs-target difference over
the target-profile assets only; held assets absent from the target profile
contribute nothing. -/
theorem C5_target_drift_amended (svc : InvestmentService)
    (notif : NotificationService) (tt : RebalanceTriggerType) (dt : Option ℚ)
    (force : Bool) (pf : Portfolio) (rp : RiskProfile)
    (hpf : svc.get_portfolio = some pf) (hrp : svc.get_risk_profile = some rp)
    (hnz : ¬(totalValue pf = 0 ∧ pf.holdings ≠ [])) :
    (compute_rebalance svc notif tt dt force).finalLog.max_drift =
      maxDriftOverTargets (currentAllocations pf.holdings (totalValue pf))
        rp.allocations := by
  rw [compute_rebalance_eq svc notif tt dt force pf rp hpf hrp hnz]
  dsimp only [ComputeResult.finalLog]
  split_ifs with hb
  · exact driftLoop_max_eq _ _ _ _
  · exact driftLoop_max_eq _ _ _ _

/-- C5 (amended), witnessed at the half-and-half portfolio whose target
profile names only `B`. -/
theorem C5_target_drift_amended_witness :
    (compute_rebalance svcC5 notifOk RebalanceTriggerType.scheduled none
        false).finalLog.max_drift =
      maxDriftOverTargets (currentAllocations pfC3.holdings (totalValue pfC3))
        [("B", 1/2)] :=
  C5_target_drift_amended svcC5 notifOk RebalanceTriggerType.scheduled none false
    pfC3 { allocations := [("B", 1/2)] } rfl rfl (by norm_num [totalValue, pfC3])

/-- C6: when the maximal target drift does not exceed the run's effective
threshold and `force = false`, `compute_rebalance` persists `max_drift`,
marks the run completed with `completed_at` set, returns the run with a null
summary, and leaves `suggested_trades` unset — a normal terminal state,
not an error. -/
theorem C6_below_threshold_noop (svc : InvestmentService)
    (notif : NotificationService) (tt : RebalanceTriggerType) (dt : Option ℚ)
    (pf : Portfolio) (rp : RiskProfile)
    (hpf : svc.get_portfolio = some pf) (hrp : svc.get_risk_profile = some rp)
    (hnz : ¬(totalValue pf = 0 ∧ pf.holdings ≠ []))
    (hd : maxDriftOverTargets (currentAllocations pf.holdings (totalValue pf))
        rp.allocations ≤ orDefault dt (1/20)) :
    compute_rebalance svc notif tt dt false =
      ComputeResult.ok
        { initLog tt dt with
            before_allocations :=
              some (currentAllocations pf.holdings (totalValue pf)),
            total_value := totalValue pf,
            max_drift :=
              maxDriftOverTargets (currentAllocations pf.holdings (totalValue pf))
                rp.allocations,
            status := RebalanceStatus.completed, completed_at := true }
        none := by
  rw [compute_rebalance_eq svc notif tt dt false pf rp hpf hrp hnz]
  have heff : 0 ≤ orDefault dt (1/20) :=
    le_trans (maxDriftOverTargets_nonneg _ _) hd
  have hmax := driftLoop_max_eq pf.holdings
    (currentAllocations pf.holdings (totalValue pf)) (orDefault dt (1/20))
    rp.allocations
  have hneeds : (driftLoop pf.holdings
      (currentAllocations pf.holdings (totalValue pf)) (orDefault dt (1/20))
      rp.allocations).needs_rebalance = false := by
    rw [driftLoop_needs_eq _ _ _ _ heff, hmax]
    exact decide_eq_false (not_lt.mpr hd)
  dsimp only
  rw [if_pos ⟨hneeds, rfl⟩, hmax]

/-- C6, witnessed at the `A: 0.52, B: 0.48` portfolio with half-half targets
and the default threshold: drift 0.02 stays below 0.05 and the run completes
as a no-op. -/
theorem C6_below_threshold_noop_witness :
    compute_rebalance svcNoop notifOk RebalanceTriggerType.scheduled none false =
      ComputeResult.ok
        { initLog RebalanceTriggerType.scheduled none with
            before_allocations :=
              some (currentAllocations pfNoop.holdings (totalValue pfNoop)),
            total_value := totalValue pfNoop,
            max_drift :=
              maxDriftOverTargets
                (currentAllocations pfNoop.holdings (totalValue pfNoop))
                [("A", 1/2), ("B", 1/2)],
            status := RebalanceStatus.completed, completed_at := true }
        none :=
  C6_below_threshold_noop svcNoop notifOk RebalanceTriggerType.scheduled none
    pfNoop { allocations := [("A", 1/2), ("B", 1/2)] } rfl rfl
    (by norm_num [totalValue, pfNoop])
    (by norm_num [maxDriftOverTargets, currentAllocations, dictInsert, dictGet,
      totalValue, pfNoop, orDefault, List.find?, List.any, str_AB, str_BA,
      abs_eq_max_neg, max_def])

/-- C4: counterexample. Executing the one-trade plan of `logPlan1` with
every trade filling succeeds (`status = completed`) when the completion
notification succeeds, but the same run ends `status = failed` when the
completion notification raises: the notification call sits inside the
guarded block of `execute_rebalance`, so its failure fails the run. -/
theorem C4_notification_failure_counterexample :
    (execute_rebalance svcExecOk notifOk (some logPlan1)).statusOf
        = some RebalanceStatus.completed ∧
    (execute_rebalance svcExecOk notifBadComplete (some logPlan1)).statusOf
        = some RebalanceStatus.failed := by
  norm_num [execute_rebalance, executeFail, runTrades, initLog, svcExecOk, pfC3, pfNoop,
    notifOk, notifBadComplete, logPlan1, trA, tradeOkResult, totalValue, currentAllocations,
    dictInsert, dictGet, PyErr.message, ExecResult.finalLog, ExecResult.statusOf, List.any,
    List.find?, List.foldl, str_AB, str_BA]

/-- C4 (amended): a Notification Service failure cannot fail
`compute_rebalance` (its success paths send no notification at all: a normal
return is independent of the notification collaborator), but in
`execute_rebalance` the success notification is sent inside the guarded
block: when every trade fills and the re-fetch succeeds, the run ends
`completed` if `send_rebalance_complete` succeeds, yet is re-marked `failed`
with the notification error, which propagates, if it raises. -/
theorem C4_notification_best_effort_amended :
    (∀ (svc : InvestmentService) (n1 n2 : NotificationService)
       (tt : RebalanceTriggerType) (dt : Option ℚ) (force : Bool)
       (log : RebalanceLog) (s : Option RebalanceSummary),
      compute_rebalance svc n1 tt dt force = ComputeResult.ok log s →
      compute_rebalance svc n2 tt dt force = ComputeResult.ok log s) ∧
    (∀ (svc : InvestmentService) (notif : NotificationService)
       (log : RebalanceLog) (plan : List (String × RebalanceTrade))
       (executed : List (String × TradeResult)) (pf : Portfolio),
      log.status = RebalanceStatus.computing →
      log.suggested_trades = some plan →
      runTrades svc plan [] = Except.ok executed →
      svc.get_portfolio_exec = some pf →
      ¬(totalValue pf = 0 ∧ pf.holdings ≠ []) →
      (notif.send_rebalance_complete log.rebalance_amount executed.length =
          Except.ok () →
        execute_rebalance svc notif (some log) =
          ExecResult.ok
            { log with status := RebalanceStatus.completed, completed_at := true,
                       after_allocations :=
                         some (currentAllocations pf.holdings (totalValue pf)),
                       executed_trades := some executed }) ∧
      (∀ e, notif.send_rebalance_complete log.rebalance_amount executed.length =
          Except.error e →
        (execute_rebalance svc notif (some log)).finalLog =
          some { log with status := RebalanceStatus.failed,
                          error := some e.message, completed_at := true,
                          after_allocations :=
                            some (currentAllocations pf.holdings (totalValue pf)),
                          executed_trades := some executed } ∧
        (execute_rebalance svc notif (some log)).raised ≠ none)) := by
  constructor
  · intro svc n1 n2 tt dt force log s h
    obtain ⟨gp, grp, et, gpe⟩ := svc
    simp only [compute_rebalance] at h ⊢
    cases gp with
    | none => exact absurd h (computeFail_ne_ok _ _ _ _ _)
    | some pf =>
      cases grp with
      | none => exact absurd h (computeFail_ne_ok _ _ _ _ _)
      | some rp =>
        dsimp only at h ⊢
        by_cases hz : totalValue pf = 0 ∧ pf.holdings ≠ []
        · rw [if_pos hz] at h
          exact absurd h (computeFail_ne_ok _ _ _ _ _)
        · rw [if_neg hz] at h ⊢
          exact h
  · intro svc notif log plan executed pf hst hplan hrun hpe hnz
    rw [execute_rebalance_computing svc notif log plan hst hplan, hrun, hpe]
    dsimp only
    rw [if_neg hnz]
    constructor
    · intro hsend
      rw [hsend]
    · intro e hsend
      rw [hsend]
      dsimp only
      constructor
      · rw [executeFail_finalLog]
      · exact executeFail_raised_ne_none _ _ _

/-- C3: counterexample. For the portfolio `A: 50 in 10 units, B: 50 in 5
units` and targets `A: 3/4, C: 1/4`, planning succeeds and emits a buy of
`A` with `units = 1/2` (25 of value diff divided by the holding value 50,
not by the per-unit price 50/10 = 5 as the claim states), and a buy of the
unheld asset `C` with `units = 0` (no reference price is consulted and the
run is not failed). -/
theorem C3_units_counterexample :
    (compute_rebalance svcC3 notifOk RebalanceTriggerType.manual none false).isOk = true ∧
    ((compute_rebalance svcC3 notifOk RebalanceTriggerType.manual none false).tradesOf.map
        RebalanceTrade.asset_id) = ["A", "C"] ∧
    ((compute_rebalance svcC3 notifOk RebalanceTriggerType.manual none false).tradesOf.map
        RebalanceTrade.units) = [1/2, 0] ∧
    (1/2 : ℚ) ≠ |(25 : ℚ)| / (50 / 10) := by
  norm_num [compute_rebalance, computeFail, initLog, totalValue, svcC3, pfC3, notifOk,
    ComputeResult.isOk, ComputeResult.tradesOf, currentAllocations, dictInsert, dictGet,
    orDefault, driftLoop, driftStep, planTrades, planStep, List.find?, List.foldl, List.any,
    str_AB, str_BA, str_AC, str_CA, str_BC, str_CB, abs_eq_max_neg, max_def]

/-- C7: for every trade plan `compute_rebalance` produces (with pairwise
distinct target-profile keys): a target asset yields a trade iff its
absolute value difference `total_value * target − current_value` exceeds the
0.01 dust floor; every emitted trade has `action = buy` iff the value
difference is positive and `value` equal to its absolute value; and the
persisted `rebalance_amount` is exactly the sum of the emitted values. -/
theorem C7_trade_plan (svc : InvestmentService) (notif : NotificationService)
    (tt : RebalanceTriggerType) (dt : Option ℚ) (force : Bool)
    (log : RebalanceLog) (summary : RebalanceSummary) (pf : Portfolio)
    (rp : RiskProfile)
    (hpf : svc.get_portfolio = some pf) (hrp : svc.get_risk_profile = some rp)
    (hnd : (rp.allocations.map Prod.fst).Nodup)
    (hc : compute_rebalance svc notif tt dt force =
      ComputeResult.ok log (some summary)) :
    (∀ a tgt, (a, tgt) ∈ rp.allocations →
      ((∃ tr, tr ∈ summary.trades ∧ tr.asset_id = a) ↔
        1/100 < |totalValue pf * tgt - holdingValue pf.holdings a|)) ∧
    (∀ a tgt, (a, tgt) ∈ rp.allocations → ∀ tr, tr ∈ summary.trades →
      tr.asset_id = a →
      ((tr.action = "buy" ↔
          0 < totalValue pf * tgt - holdingValue pf.holdings a) ∧
        tr.value = |totalValue pf * tgt - holdingValue pf.holdings a|)) ∧
    log.rebalance_amount = (summary.trades.map RebalanceTrade.value).sum := by
  by_cases hz : totalValue pf = 0 ∧ pf.holdings ≠ []
  · simp only [compute_rebalance, hpf, hrp] at hc
    rw [if_pos hz] at hc
    exact absurd hc (computeFail_ne_ok _ _ _ _ _)
  · rw [compute_rebalance_eq svc notif tt dt force pf rp hpf hrp hz] at hc
    dsimp only at hc
    split_ifs at hc with hb
    · exact absurd hc (by simp)
    · rw [ComputeResult.ok.injEq, Option.some.injEq] at hc
      obtain ⟨hlog, hsum⟩ := hc
      subst hlog
      subst hsum
      have htr : (planTrades (totalValue pf)
          (driftLoop pf.holdings (currentAllocations pf.holdings (totalValue pf))
            (orDefault dt (1/20)) rp.allocations).allocations).trades =
          rp.allocations.filterMap (fun e => plannedTradeFor (totalValue pf)
            (e.1, mkAlloc pf.holdings
              (currentAllocations pf.holdings (totalValue pf)) e)) := by
        rw [planTrades_trades_eq, driftLoop_allocs_eq pf.holdings
          (currentAllocations pf.holdings (totalValue pf)) (orDefault dt (1/20))
          rp.allocations hnd, List.filterMap_map]
        rfl
      refine ⟨?_, ?_, ?_⟩
      · intro a tgt hmem
        constructor
        · rintro ⟨tr, htrmem, hid⟩
          rw [htr] at htrmem
          obtain ⟨e, hemem, hfe⟩ := List.mem_filterMap.mp htrmem
          obtain ⟨hid', hval, hact, hcond⟩ := plannedTradeFor_spec _ _ _ hfe
          have he1 : e.1 = a := by
            rw [← hid]
            exact hid'.symm
          have he2 : e.2 = tgt := by
            refine keys_nodup_eq_val rp.allocations hnd a e.2 tgt ?_ hmem
            rw [← he1]
            exact hemem
          have hcond' : 1/100 <
              |totalValue pf * e.2 - holdingValue pf.holdings e.1| := hcond
          rw [he1, he2] at hcond'
          exact hcond'
        · intro hcond
          obtain ⟨tr, hfe, hid⟩ := plannedTradeFor_of_big (totalValue pf)
            (a, mkAlloc pf.holdings
              (currentAllocations pf.holdings (totalValue pf)) (a, tgt)) hcond
          refine ⟨tr, ?_, hid⟩
          rw [htr]
          exact List.mem_filterMap.mpr ⟨(a, tgt), hmem, hfe⟩
      · intro a tgt hmem tr htrmem hid
        rw [htr] at htrmem
        obtain ⟨e, hemem, hfe⟩ := List.mem_filterMap.mp htrmem
        obtain ⟨hid', hval, hact, hcond⟩ := plannedTradeFor_spec _ _ _ hfe
        have he1 : e.1 = a := by
          rw [← hid]
          exact hid'.symm
        have he2 : e.2 = tgt := by
          refine keys_nodup_eq_val rp.allocations hnd a e.2 tgt ?_ hmem
          rw [← he1]
          exact hemem
        have hval' : tr.value =
            |totalValue pf * e.2 - holdingValue pf.holdings e.1| := hval
        have hact' : tr.action = "buy" ↔
            0 < totalValue pf * e.2 - holdingValue pf.holdings e.1 := hact
        rw [he1, he2] at hval' hact'
        exact ⟨hact', hval'⟩
      · show (planTrades (totalValue pf)
            (driftLoop pf.holdings (currentAllocations pf.holdings (totalValue pf))
              (orDefault dt (1/20)) rp.allocations).allocations).rebalance_amount =
          ((planTrades (totalValue pf)
            (driftLoop pf.holdings (currentAllocations pf.holdings (totalValue pf))
              (orDefault dt (1/20)) rp.allocations).allocations).trades.map
            RebalanceTrade.value).sum
        rw [planTrades_amount_eq, planTrades_trades_eq]

/-- The `svcC3` scenario's compute run, evaluated to its literal result. -/
theorem compute_svcC3_eval :
    compute_rebalance svcC3 notifOk RebalanceTriggerType.manual none false =
      ComputeResult.ok logC3 (some summaryC3) := by
  norm_num [compute_rebalance, computeFail, initLog, totalValue, svcC3, pfC3, rpC3,
    notifOk, logC3, summaryC3, tradeA_C3, tradeC_C3, allocA_C3, allocC_C3,
    currentAllocations, dictInsert, dictGet, orDefault, driftLoop, driftStep,
    planTrades, planStep, List.find?, List.foldl, List.any, str_AB, str_BA,
    str_AC, str_CA, str_BC, str_CB, abs_eq_max_neg, max_def]

/-- C7, witnessed at the `svcC3` scenario (portfolio `A: 50, B: 50`, targets
`A: 3/4, C: 1/4`): both emitted trades and the rebalance amount satisfy the
characterization. -/
theorem C7_trade_plan_witness :
    (∀ a tgt, (a, tgt) ∈ rpC3.allocations →
      ((∃ tr, tr ∈ summaryC3.trades ∧ tr.asset_id = a) ↔
        1/100 < |totalValue pfC3 * tgt - holdingValue pfC3.holdings a|)) ∧
    (∀ a tgt, (a, tgt) ∈ rpC3.allocations → ∀ tr, tr ∈ summaryC3.trades →
      tr.asset_id = a →
      ((tr.action = "buy" ↔
          0 < totalValue pfC3 * tgt - holdingValue pfC3.holdings a) ∧
        tr.value = |totalValue pfC3 * tgt - holdingValue pfC3.holdings a|)) ∧
    logC3.rebalance_amount = (summaryC3.trades.map RebalanceTrade.value).sum :=
  C7_trade_plan svcC3 notifOk RebalanceTriggerType.manual none false logC3
    summaryC3 pfC3 rpC3 rfl rfl (by decide) compute_svcC3_eval

/-- C9: `execute_rebalance` raises `ValueError` when no run with the given
id exists, and raises `ValueError` leaving the run's persisted state
unchanged when the run's status is not `computing` — so terminal, pending or
executing runs can never be (re-)executed. -/
theorem C9_execute_precondition_guard :
    (∀ svc notif, execute_rebalance svc notif none =
        ExecResult.err none (PyErr.valueError ("Rebalance log not found"))) ∧
    (∀ svc notif log, log.status ≠ RebalanceStatus.computing →
        execute_rebalance svc notif (some log) =
          ExecResult.err (some log) (PyErr.valueError ("Invalid rebalance status"))) := by
  constructor
  · intro svc notif
    rfl
  · intro svc notif log h
    simp only [execute_rebalance]
    rw [if_pos h]

/-- C10: `on_deposit` enqueues a rebalance task — necessarily with
`trigger_type = deposit` and `force = true` — exactly when a threshold was
supplied, is nonzero, and the deposit amount is at least the threshold; in
particular an omitted or zero threshold never dispatches. -/
theorem C10_on_deposit_iff (amount : ℚ) (threshold : Option ℚ) :
    (on_deposit amount threshold =
        some { trigger_type := RebalanceTriggerType.deposit, force := true } ↔
      ∃ t, threshold = some t ∧ t ≠ 0 ∧ t ≤ amount) ∧
    (threshold = none ∨ threshold = some 0 →
      on_deposit amount threshold = none) := by
  cases threshold with
  | none => simp [on_deposit]
  | some t =>
    simp only [on_deposit]
    constructor
    · split_ifs with hc
      · simp only [Option.some.injEq, true_iff]
        exact ⟨t, rfl, hc.1, ge_iff_le.mp hc.2⟩
      · constructor
        · intro h
          simp at h
        · rintro ⟨t', ht', h0, hle⟩
          obtain rfl : t' = t := (Option.some_inj.mp ht').symm
          exact absurd ⟨h0, ge_iff_le.mpr hle⟩ hc
    · rintro (h | h)
      · simp at h
      · obtain rfl : t = 0 := Option.some_inj.mp h
        simp

end FintechRebalance
